import Mathlib

/-!
# Verification of `misc/scripts/new_content.py`

A shallow embedding of the content-scaffolding script `new_content.py`.
The script resolves a content type to a base directory, builds an entry
directory name from year/month/title, creates the directory, and writes a
frontmatter file `index.md` into it.

The filesystem is modelled explicitly as a list of existing directory paths
plus an association of file paths to contents.  Python string operations
used by the script (`str.lower`, `str.replace` on a single character,
`str.strip`, `f"{n:02d}"` formatting, and the truthy `or` used for argument
defaulting) are modelled for the ASCII strings the script manipulates.
-/

set_option maxRecDepth 8000

namespace NewContent

/-- Python `str.lower` on one character, for ASCII: uppercase A–Z maps to
a–z, all other characters unchanged (matches core `Char.toLower`). -/
def pyLowerChar (c : Char) : Char := Char.toLower c

/-- Python `str.lower` for ASCII strings: lowercase every character. -/
def pyLower (s : String) : String := ⟨s.data.map pyLowerChar⟩

/-- Python `s.replace(a, b)` where `a` and `b` are single characters:
replace every occurrence of `a` by `b`. -/
def pyReplace (s : String) (a b : Char) : String :=
  ⟨s.data.map fun c => if c = a then b else c⟩

/-- The whitespace characters removed by Python `str.strip()`. -/
def pySpace (c : Char) : Bool :=
  c = ' ' || c = '\t' || c = '\n' || c = '\x0d' || c = '\x0b' || c = '\x0c'

/-- Python `str.strip()`: drop leading and trailing whitespace. -/
def pyStrip (s : String) : String :=
  ⟨((s.data.dropWhile pySpace).reverse.dropWhile pySpace).reverse⟩

/-- Python `f"{i:02d}"`: decimal representation of `i`, left-padded with a
zero when it is shorter than two characters (the sign counts toward the
width, exactly as in Python). -/
def format02d (i : Int) : String :=
  if 0 ≤ i ∧ i ≤ 9 then "0" ++ toString i else toString i

/-- Python `strftime("%Y")`: decimal year zero-padded to four digits
(`datetime` years are always ≥ 1). -/
def format04d (i : Int) : String :=
  if 0 ≤ i then
    let s := toString i
    ⟨List.replicate (4 - s.length) '0'⟩ ++ s
  else toString i

/-- Python `a or b` for an optional string (`argparse` yields `None` for an
omitted flag; an empty string is falsy and also falls through to `b`). -/
def pyOrStr : Option String → String → String
  | none, d => d
  | some s, d => if s = "" then d else s

/-- Python `a or b` for an optional integer: `None` and `0` are falsy and
fall through to `b`. -/
def pyOrInt : Option Int → Int → Int
  | none, d => d
  | some n, d => if n = 0 then d else n

/-- The components of `datetime.now()` that the script consumes. -/
structure Now where
  year : Int
  month : Int
  day : Int
deriving DecidableEq

/-- Python `datetime.now().strftime("%Y-%m-%d")`. -/
def Now.dateStr (n : Now) : String :=
  format04d n.year ++ "-" ++ format02d n.month ++ "-" ++ format02d n.day

/-- The filesystem state the script reads and mutates: the set of existing
directory paths and an association of file paths to their contents. -/
structure FS where
  dirs : List String
  files : List (String × String)
deriving DecidableEq

/-- Split a character list at every occurrence of `sep` (like Python
`str.split(sep)` for a one-character separator). -/
def splitOnChar (sep : Char) : List Char → List (List Char)
  | [] => [[]]
  | c :: rest =>
    match splitOnChar sep rest with
    | [] => [[]]
    | g :: gs => if c = sep then [] :: g :: gs else (c :: g) :: gs

/-- Join path components with `"/"`. -/
def joinSlash : List String → String
  | [] => ""
  | [x] => x
  | x :: y :: xs => x ++ "/" ++ joinSlash (y :: xs)

/-- The directory prefixes created by `os.makedirs`: for `"a/b/c"` these
are `"a"`, `"a/b"`, `"a/b/c"`. -/
def pathPrefixes (p : String) : List String :=
  let parts := (splitOnChar '/' p.data).map fun l => (⟨l⟩ : String)
  (List.range parts.length).map fun i => joinSlash (parts.take (i + 1))

/-- Insert a directory path if it is not already present. -/
def insertDir (ds : List String) (d : String) : List String :=
  if d ∈ ds then ds else ds ++ [d]

/-- `os.makedirs(p, exist_ok=True)`: create `p` and any missing ancestor
directories; succeeds silently when they already exist. -/
def FS.makedirs (fs : FS) (p : String) : FS :=
  { fs with dirs := (pathPrefixes p).foldl insertDir fs.dirs }

/-- `open(path, "w")` followed by a single `write`: the file's previous
content (if any) is discarded and replaced by `content`. -/
def FS.write (fs : FS) (path content : String) : FS :=
  { fs with files := (path, content) :: fs.files.filter fun kv => kv.1 ≠ path }

/-- Outcome of a run: `exited msg fs` models `sys.exit(msg)` (the message
is printed and the process terminates with a non-zero exit code), `ok`
carries the printed report lines and the final filesystem. -/
inductive RunResult where
  | exited (msg : String) (fs : FS)
  | ok (lines : List String) (fs : FS)
deriving DecidableEq

/-- The frontmatter template, line by line, exactly as in the triple-quoted
f-string of `init_content` (lines 27–40 of the source; the literal ends with
`+++` followed by a blank line, hence the two trailing empty lines). -/
def frontmatterLines (title date content_type slug : String) : List String :=
  ["+++",
   "title = \"" ++ title ++ "\"",
   "date = \"" ++ date ++ "\"",
   "summary = \"\"",
   "tags = []",
   "type = \"" ++ content_type ++ "\"",
   "toc = false",
   "readTime = true",
   "autonumber = false",
   "showTags = true",
   "slug = \"" ++ slug ++ "\"",
   "+++",
   "",
   ""]

/-- The frontmatter string written to `index.md`: the template lines joined
by newlines. -/
def frontmatter (title date content_type slug : String) : String :=
  String.intercalate "\n" (frontmatterLines title date content_type slug)

/-- Line 17 of the source:
`f"{year}_{month:02d}_{title.replace(' ', '_')}".lower()`. -/
def dirNameOf (title : String) (year month : Int) : String :=
  pyLower (toString year ++ "_" ++ format02d month ++ "_" ++ pyReplace title ' ' '_')

/-- Line 26 of the source: `title.replace(" ", "-").lower()`. -/
def slugOf (title : String) : String :=
  pyLower (pyReplace title ' ' '-')

/-- `init_content(title, year, month, content_type, content_types_to_dir)`
from the source, acting on a filesystem `fs` with clock `now`.  The
dictionary access `content_types_to_dir[content_type]` is modelled by an
association-list lookup; `main` only calls it with a validated key (a
missing key would raise `KeyError` in Python, a path no claim exercises,
modelled here by the `""` default). -/
def init_content (title : String) (year month : Int) (content_type : String)
    (content_types_to_dir : List (String × String)) (now : Now) (fs : FS) : RunResult :=
  let base_dir := "content/" ++ ((content_types_to_dir.lookup content_type).getD "")
  if base_dir ∈ fs.dirs then
    let dir_name := dirNameOf title year month
    let dir_path := base_dir ++ "/" ++ dir_name
    let fs1 := fs.makedirs dir_path
    let index_file_path := dir_path ++ "/" ++ "index.md"
    let date := now.dateStr
    let slug := slugOf title
    let fm := frontmatter title date content_type slug
    let fs2 := fs1.write index_file_path fm
    .ok ["New " ++ content_type ++ " created",
         "\ttitle:\t" ++ title,
         "\tdir:\t" ++ dir_name,
         "\tslug:\t" ++ slug,
         "\tpath:\t" ++ index_file_path] fs2
  else
    .exited ("Error: directory '" ++ base_dir ++ "' does not exist") fs

/-- Line 54 of the source: `{"post": "posts", "note": "notes"}`. -/
def content_types_to_dir : List (String × String) := [("post", "posts"), ("note", "notes")]

/-- Line 55 of the source: `list(content_types_to_dir.keys())`. -/
def content_types : List String := ["post", "note"]

/-- The command-line arguments after `argparse` parsing: each flag is
`none` when omitted.  `--year`/`--month` carry integers (`type=int`). -/
structure Args where
  title : Option String
  type : Option String
  year : Option Int
  month : Option Int
deriving DecidableEq

/-- The `argparse` error for a `--type` value outside `choices`
(`argparse` prints usage plus this message and exits with a non-zero
code before `main`'s body runs). -/
def argparseTypeErr (t : String) : String :=
  "argument --type: invalid choice: '" ++ t ++ "' (choose from 'post', 'note')"

/-- The body of `main()` after `argparse` parsing (lines 70–87 of the
source): resolve the title (truthy `or` with the interactive prompt, then
`strip`), reject an empty title, resolve and validate the content type,
default year and month from the clock via truthy `or`, then call
`init_content`. -/
def mainBody (args : Args) (inputTitle inputType : String) (now : Now) (fs : FS) : RunResult :=
  let title := pyStrip (pyOrStr args.title inputTitle)
  if title = "" then
    .exited "Error: empty title" fs
  else
    let content_type := pyOrStr args.type inputType
    if content_type ∈ content_types then
      let year := pyOrInt args.year now.year
      let month := pyOrInt args.month now.month
      init_content title year month content_type content_types_to_dir now fs
    else
      .exited ("Error: invalid content type, should be one of: ['post', 'note']") fs

/-- `main()` from the source.  `inputTitle` and `inputType` are the values
the interactive `input(...)` prompts would return; they are consumed only
on the branches where the source actually calls `input` (flag absent or
falsy).  `argparse` validates `--type` against `choices` before the body
runs, which the leading check models. -/
def main (args : Args) (inputTitle inputType : String) (now : Now) (fs : FS) : RunResult :=
  match args.type with
  | some t =>
    if t ∈ content_types then
      mainBody args inputTitle inputType now fs
    else
      .exited (argparseTypeErr t) fs
  | none => mainBody args inputTitle inputType now fs

/-- The directory-name formula as the spec states it (§8): for all valid
(title, type, year, month) the directory name equals
`lowercase(f"{year}_{month:02d}_{title with spaces→underscores}")`. -/
def specDirName (title : String) (year month : Int) : String :=
  pyLower (toString year ++ "_" ++ format02d month ++ "_" ++ pyReplace title ' ' '_')

/-- The slug formula as the spec states it (§8): the slug equals
`lowercase(title with spaces→hyphens)`. -/
def specSlug (title : String) : String :=
  pyLower (pyReplace title ' ' '-')

/-- A string is a single well-formed double-quoted literal: at least two
characters, the first and last are `"`, and no interior `"` occurs. -/
def wellFormedQuoted (s : String) : Bool :=
  decide (2 ≤ s.data.length) && (s.data.head? == some '"') && (s.data.getLast? == some '"') &&
    ((s.data.drop 1).dropLast.all fun c => c ≠ '"')

/-- Join character-list groups with a separator character (inverse of
`splitOnChar`, used to reason about `pathPrefixes`). -/
def joinChars (sep : Char) : List (List Char) → List Char
  | [] => []
  | [g] => g
  | g :: h :: t => g ++ sep :: joinChars sep (h :: t)

/-- A concrete clock for concrete runs: 2024-03-15. -/
def now0 : Now := ⟨2024, 3, 15⟩

/-- A concrete filesystem where both base category directories exist. -/
def fs0 : FS := ⟨["content", "content/posts", "content/notes"], []⟩

/-- A concrete filesystem with no directories at all. -/
def fsNoBase : FS := ⟨[], []⟩

/-- Concrete flags: `--title "My Post" --type post --year 2024 --month 3`. -/
def args0 : Args := ⟨some "My Post", some "post", some 2024, some 3⟩

/-- Concrete flags with an out-of-range month:
`--title "My Post" --type post --year 2024 --month 13`. -/
def args13 : Args := ⟨some "My Post", some "post", some 2024, some 13⟩

/-- Concrete flags whose title contains a double quote:
`--title 'My "Post"' --type post --year 2024 --month 3`. -/
def argsQ : Args := ⟨some "My \"Post\"", some "post", some 2024, some 3⟩

example : pyLower "2024_03_My_Post" = "2024_03_my_post" := by decide
example : format02d 3 = "03" := by decide
example : format02d 13 = "13" := by decide
example : format02d (-5) = "-5" := by decide
example : pyStrip "  My Post \t" = "My Post" := by decide
example : pathPrefixes "content/posts/x" = ["content", "content/posts", "content/posts/x"] := by decide
example : dirNameOf "My Post" 2024 3 = "2024_03_my_post" := by decide
example : dirNameOf "My Post" 2024 13 = "2024_13_my_post" := by decide
example : slugOf "My Post" = "my-post" := by decide
example : frontmatter "T" "2024-03-15" "post" "t" =
    "+++\ntitle = \"T\"\ndate = \"2024-03-15\"\nsummary = \"\"\ntags = []\ntype = \"post\"\ntoc = false\nreadTime = true\nautonumber = false\nshowTags = true\nslug = \"t\"\n+++\n\n" := by decide
example : (Now.mk 2024 3 15).dateStr = "2024-03-15" := by decide
example :
    init_content "My Post" 2024 3 "post" content_types_to_dir (Now.mk 2024 3 15)
      (FS.mk ["content", "content/posts"] []) =
    .ok ["New post created", "\ttitle:\tMy Post", "\tdir:\t2024_03_my_post",
         "\tslug:\tmy-post", "\tpath:\tcontent/posts/2024_03_my_post/index.md"]
      (FS.mk ["content", "content/posts", "content/posts/2024_03_my_post"]
        [("content/posts/2024_03_my_post/index.md",
          frontmatter "My Post" "2024-03-15" "post" "my-post")]) := by decide

/-! ## Helper lemmas -/

theorem data_append (s t : String) : (s ++ t).data = s.data ++ t.data := rfl

theorem mem_foldl_insertDir_init {a : String} {ds : List String} (xs : List String)
    (h : a ∈ ds) : a ∈ xs.foldl insertDir ds := by
  induction xs generalizing ds with
  | nil => exact h
  | cons x xs ih =>
    simp only [List.foldl_cons]
    apply ih
    unfold insertDir
    split
    · exact h
    · exact List.mem_append_left _ h

theorem mem_foldl_insertDir_of_mem {a : String} {ds xs : List String}
    (h : a ∈ xs) : a ∈ xs.foldl insertDir ds := by
  induction xs generalizing ds with
  | nil => cases h
  | cons x xs ih =>
    simp only [List.foldl_cons]
    rcases List.mem_cons.mp h with rfl | h
    · apply mem_foldl_insertDir_init
      unfold insertDir
      split
      · assumption
      · exact List.mem_append_right _ (by simp)
    · exact ih h

theorem foldl_insertDir_id {ds xs : List String} (h : ∀ x ∈ xs, x ∈ ds) :
    xs.foldl insertDir ds = ds := by
  induction xs with
  | nil => rfl
  | cons x xs ih =>
    have hx : x ∈ ds := h x (by simp)
    simp only [List.foldl_cons]
    rw [show insertDir ds x = ds from by unfold insertDir; simp [hx]]
    exact ih fun y hy => h y (by simp [hy])

theorem splitOnChar_ne_nil (sep : Char) (l : List Char) : splitOnChar sep l ≠ [] := by
  cases l with
  | nil => simp [splitOnChar]
  | cons c rest =>
    rw [splitOnChar]
    rcases splitOnChar sep rest with _ | ⟨g, gs⟩
    · simp
    · by_cases hc : c = sep <;> simp [hc]

theorem joinChars_splitOnChar (sep : Char) (l : List Char) :
    joinChars sep (splitOnChar sep l) = l := by
  induction l with
  | nil => rfl
  | cons c rest ih =>
    rw [splitOnChar]
    rcases h : splitOnChar sep rest with _ | ⟨g, gs⟩
    · exact absurd h (splitOnChar_ne_nil sep rest)
    · rw [h] at ih
      show joinChars sep (if c = sep then [] :: g :: gs else (c :: g) :: gs) = c :: rest
      by_cases hc : c = sep
      · rw [if_pos hc]
        show ([] : List Char) ++ sep :: joinChars sep (g :: gs) = c :: rest
        rw [ih, hc]
        rfl
      · rw [if_neg hc]
        cases gs with
        | nil =>
          have hg : g = rest := ih
          show c :: g = c :: rest
          rw [hg]
        | cons g2 t2 =>
          show (c :: g) ++ sep :: joinChars sep (g2 :: t2) = c :: rest
          rw [← ih]
          rfl

theorem joinSlash_map_mk :
    ∀ gs : List (List Char), joinSlash (gs.map fun l => (⟨l⟩ : String)) = ⟨joinChars '/' gs⟩
  | [] => rfl
  | [_] => rfl
  | g :: g2 :: t => by
    have ih := joinSlash_map_mk (g2 :: t)
    simp only [List.map_cons] at ih ⊢
    rw [joinSlash, joinChars, ih]
    show (⟨(g ++ ['/']) ++ joinChars '/' (g2 :: t)⟩ : String) = ⟨g ++ '/' :: joinChars '/' (g2 :: t)⟩
    exact congrArg String.mk (by simp)

theorem mem_pathPrefixes_self (p : String) : p ∈ pathPrefixes p := by
  unfold pathPrefixes
  have hne : ((splitOnChar '/' p.data).map fun l => (⟨l⟩ : String)) ≠ [] := by
    simpa using splitOnChar_ne_nil '/' p.data
  have hlen : 0 < ((splitOnChar '/' p.data).map fun l => (⟨l⟩ : String)).length :=
    List.length_pos.mpr hne
  refine List.mem_map.mpr ⟨((splitOnChar '/' p.data).map fun l => (⟨l⟩ : String)).length - 1,
    List.mem_range.mpr (by omega), ?_⟩
  rw [Nat.sub_add_cancel hlen, List.take_length, joinSlash_map_mk, joinChars_splitOnChar]

theorem self_mem_makedirs (fs : FS) (p : String) : p ∈ (fs.makedirs p).dirs :=
  mem_foldl_insertDir_of_mem (mem_pathPrefixes_self p)

theorem mem_makedirs_of_mem {fs : FS} {a : String} (p : String) (h : a ∈ fs.dirs) :
    a ∈ (fs.makedirs p).dirs :=
  mem_foldl_insertDir_init _ h

theorem prefixes_mem_makedirs (fs : FS) (p : String) :
    ∀ x ∈ pathPrefixes p, x ∈ (fs.makedirs p).dirs :=
  fun _ hx => mem_foldl_insertDir_of_mem hx

theorem makedirs_id {fs : FS} {p : String} (h : ∀ x ∈ pathPrefixes p, x ∈ fs.dirs) :
    fs.makedirs p = fs := by
  cases fs
  unfold FS.makedirs
  simp only [FS.mk.injEq, and_true]
  exact foldl_insertDir_id h

theorem write_dirs (fs : FS) (p c : String) : (fs.write p c).dirs = fs.dirs := rfl

theorem write_write (fs : FS) (p c : String) : (fs.write p c).write p c = fs.write p c := by
  cases fs
  unfold FS.write
  simp [List.filter_filter]

theorem eq_empty_iff_data {s : String} : s = "" ↔ s.data = [] := by
  cases s with
  | mk d =>
    exact ⟨fun h => congrArg String.data h,
      fun h => by rw [show ({ data := d } : String).data = d from rfl] at h; rw [h]⟩

theorem pyLower_ne_empty {s : String} (h : s ≠ "") : pyLower s ≠ "" := by
  intro hc
  apply h
  rw [eq_empty_iff_data] at hc ⊢
  simpa [pyLower] using hc

theorem pyReplace_ne_empty {s : String} {a b : Char} (h : s ≠ "") : pyReplace s a b ≠ "" := by
  intro hc
  apply h
  rw [eq_empty_iff_data] at hc ⊢
  simpa [pyReplace] using hc

theorem slugOf_ne_empty {s : String} (h : s ≠ "") : slugOf s ≠ "" :=
  pyLower_ne_empty (pyReplace_ne_empty h)

theorem dateStr_ne_empty (n : Now) : n.dateStr ≠ "" := by
  intro hc
  rw [eq_empty_iff_data] at hc
  rw [Now.dateStr, data_append, data_append, data_append] at hc
  simp at hc

theorem infix_append_left {l b : List Char} (a : List Char) (h : l <:+: b) :
    l <:+: a ++ b :=
  h.trans (List.suffix_append a b).isInfix

/-- Unfolding of `init_content` on the success path: the content type
resolves to `sub` and the base directory exists. -/
theorem init_content_ok {title : String} {year month : Int} {ct sub : String}
    {now : Now} {fs : FS}
    (hsub : content_types_to_dir.lookup ct = some sub)
    (hbase : "content/" ++ sub ∈ fs.dirs) :
    init_content title year month ct content_types_to_dir now fs =
      .ok ["New " ++ ct ++ " created",
           "\ttitle:\t" ++ title,
           "\tdir:\t" ++ dirNameOf title year month,
           "\tslug:\t" ++ slugOf title,
           "\tpath:\t" ++ ("content/" ++ sub ++ "/" ++ dirNameOf title year month ++ "/" ++ "index.md")]
        ((fs.makedirs ("content/" ++ sub ++ "/" ++ dirNameOf title year month)).write
          ("content/" ++ sub ++ "/" ++ dirNameOf title year month ++ "/" ++ "index.md")
          (frontmatter title now.dateStr ct (slugOf title))) := by
  unfold init_content
  rw [hsub]
  simp only [Option.getD_some]
  rw [if_pos hbase]

/-- Unfolding of `init_content` on the failure path: the base directory
does not exist, the run exits and the filesystem is untouched. -/
theorem init_content_exit {title : String} {year month : Int} {ct sub : String}
    {now : Now} {fs : FS}
    (hsub : content_types_to_dir.lookup ct = some sub)
    (hbase : "content/" ++ sub ∉ fs.dirs) :
    init_content title year month ct content_types_to_dir now fs =
      .exited ("Error: directory '" ++ ("content/" ++ sub) ++ "' does not exist") fs := by
  unfold init_content
  rw [hsub]
  simp only [Option.getD_some]
  rw [if_neg hbase]

/-- Unfolding of `main` down to the `init_content` call, when the resolved
title is non-empty and the resolved content type is valid. -/
theorem main_to_init {args : Args} {inputTitle inputType : String} {now : Now} {fs : FS}
    (hgate : ∀ t, args.type = some t → t ∈ content_types)
    (htitle : pyStrip (pyOrStr args.title inputTitle) ≠ "")
    (hct : pyOrStr args.type inputType ∈ content_types) :
    main args inputTitle inputType now fs =
      init_content (pyStrip (pyOrStr args.title inputTitle))
        (pyOrInt args.year now.year) (pyOrInt args.month now.month)
        (pyOrStr args.type inputType) content_types_to_dir now fs := by
  have hbody : mainBody args inputTitle inputType now fs =
      init_content (pyStrip (pyOrStr args.title inputTitle))
        (pyOrInt args.year now.year) (pyOrInt args.month now.month)
        (pyOrStr args.type inputType) content_types_to_dir now fs := by
    unfold mainBody
    rw [if_neg htitle, if_pos hct]
  unfold main
  rcases h : args.type with _ | t
  · rw [h] at hbody
    exact hbody
  · rw [h] at hbody
    show (if t ∈ content_types then mainBody args inputTitle inputType now fs
          else RunResult.exited (argparseTypeErr t) fs) = _
    rw [if_pos (hgate t h)]
    exact hbody

/-- Unfolding of `mainBody` when the resolved title strips to empty. -/
theorem mainBody_empty_title {args : Args} {i1 i2 : String} {now : Now} {fs : FS}
    (htitle : pyStrip (pyOrStr args.title i1) = "") :
    mainBody args i1 i2 now fs = .exited "Error: empty title" fs := by
  unfold mainBody
  rw [if_pos htitle]

/-- Unfolding of `mainBody` when the resolved content type is invalid. -/
theorem mainBody_invalid_type {args : Args} {i1 i2 : String} {now : Now} {fs : FS}
    (htitle : pyStrip (pyOrStr args.title i1) ≠ "")
    (hct : pyOrStr args.type i2 ∉ content_types) :
    mainBody args i1 i2 now fs =
      .exited "Error: invalid content type, should be one of: ['post', 'note']" fs := by
  unfold mainBody
  rw [if_neg htitle, if_neg hct]

/-- A quoted field whose payload itself contains `"` is not a single
well-formed quoted string. -/
theorem wellFormedQuoted_of_quote {t : String} (hq : '"' ∈ t.data) :
    wellFormedQuoted ("\"" ++ t ++ "\"") = false := by
  have hall : (t.data.all fun c => decide (c ≠ '"')) = false := by
    apply Bool.eq_false_iff.mpr
    intro h
    rw [List.all_eq_true] at h
    have h2 := h '"' hq
    simp at h2
  unfold wellFormedQuoted
  rw [show ("\"" ++ t ++ "\"").data = '"' :: (t.data ++ ['"']) from by
    rw [data_append, data_append]; rfl]
  have hint : (('"' :: (t.data ++ ['"'])).drop 1).dropLast = t.data := by
    simp
  rw [hint, hall, Bool.and_false]

/-! ## Claims -/

/-- C1: for every valid input (non-empty title, known content type, integer
year and month), the entry directory name produced equals
`lowercase(f"{year}_{month:02d}_{title with spaces replaced by underscores}")`;
in particular for title="My Post", year=2024, month=3 it is
`2024_03_my_post`.  The run reports that name and creates a directory of
that name under the base directory. -/
theorem C1_dir_name (title : String) (year month : Int) (ct sub : String)
    (now : Now) (fs : FS)
    (_htitle : title ≠ "")
    (hsub : content_types_to_dir.lookup ct = some sub)
    (hbase : "content/" ++ sub ∈ fs.dirs) :
    (∃ lines fs1,
       init_content title year month ct content_types_to_dir now fs = .ok lines fs1 ∧
       ("\tdir:\t" ++ dirNameOf title year month) ∈ lines ∧
       ("content/" ++ sub ++ "/" ++ dirNameOf title year month) ∈ fs1.dirs) ∧
    dirNameOf title year month = specDirName title year month ∧
    dirNameOf "My Post" 2024 3 = "2024_03_my_post" := by
  refine ⟨⟨_, _, init_content_ok hsub hbase, by simp, ?_⟩, rfl, by decide⟩
  rw [write_dirs]
  exact self_mem_makedirs fs _

theorem C1_dir_name_witness :
    (∃ lines fs1,
       init_content "My Post" 2024 3 "post" content_types_to_dir now0 fs0 = .ok lines fs1 ∧
       ("\tdir:\t" ++ dirNameOf "My Post" 2024 3) ∈ lines ∧
       ("content/" ++ "posts" ++ "/" ++ dirNameOf "My Post" 2024 3) ∈ fs1.dirs) ∧
    dirNameOf "My Post" 2024 3 = specDirName "My Post" 2024 3 ∧
    dirNameOf "My Post" 2024 3 = "2024_03_my_post" :=
  C1_dir_name "My Post" 2024 3 "post" "posts" now0 fs0 (by decide) (by decide) (by decide)

/-- C2: the slug written into the frontmatter equals the title lowercased
with every space replaced by a hyphen; in particular for "My Post" the
slug is "my-post".  The run writes `index.md` whose frontmatter contains
the line `slug = "<slug>"`. -/
theorem C2_slug (title : String) (year month : Int) (ct sub : String)
    (now : Now) (fs : FS)
    (hsub : content_types_to_dir.lookup ct = some sub)
    (hbase : "content/" ++ sub ∈ fs.dirs) :
    (∃ lines fs1,
       init_content title year month ct content_types_to_dir now fs = .ok lines fs1 ∧
       fs1.files.lookup ("content/" ++ sub ++ "/" ++ dirNameOf title year month ++ "/" ++ "index.md") =
         some (frontmatter title now.dateStr ct (slugOf title)) ∧
       ("slug = \"" ++ slugOf title ++ "\"") ∈
         frontmatterLines title now.dateStr ct (slugOf title)) ∧
    slugOf title = specSlug title ∧
    slugOf "My Post" = "my-post" := by
  refine ⟨⟨_, _, init_content_ok hsub hbase, ?_, by simp [frontmatterLines]⟩, rfl, by decide⟩
  simp [FS.write, List.lookup]

theorem C2_slug_witness :
    (∃ lines fs1,
       init_content "My Post" 2024 3 "post" content_types_to_dir now0 fs0 = .ok lines fs1 ∧
       fs1.files.lookup ("content/" ++ "posts" ++ "/" ++ dirNameOf "My Post" 2024 3 ++ "/" ++ "index.md") =
         some (frontmatter "My Post" now0.dateStr "post" (slugOf "My Post")) ∧
       ("slug = \"" ++ slugOf "My Post" ++ "\"") ∈
         frontmatterLines "My Post" now0.dateStr "post" (slugOf "My Post")) ∧
    slugOf "My Post" = specSlug "My Post" ∧
    slugOf "My Post" = "my-post" :=
  C2_slug "My Post" 2024 3 "post" "posts" now0 fs0 (by decide) (by decide)

/-- C3: if the title, after stripping leading and trailing whitespace, is
empty, the tool terminates with a non-zero exit code (`sys.exit` with a
message, or the `argparse` usage error when `--type` was also invalid) and
the filesystem is left exactly as it was. -/
theorem C3_empty_title (args : Args) (i1 i2 : String) (now : Now) (fs : FS)
    (htitle : pyStrip (pyOrStr args.title i1) = "") :
    ∃ msg, main args i1 i2 now fs = .exited msg fs := by
  unfold main
  rcases h : args.type with _ | t
  · exact ⟨"Error: empty title", mainBody_empty_title htitle⟩
  · by_cases ht : t ∈ content_types
    · refine ⟨"Error: empty title", ?_⟩
      show (if t ∈ content_types then mainBody args i1 i2 now fs
            else RunResult.exited (argparseTypeErr t) fs) = _
      rw [if_pos ht]
      exact mainBody_empty_title htitle
    · refine ⟨argparseTypeErr t, ?_⟩
      show (if t ∈ content_types then mainBody args i1 i2 now fs
            else RunResult.exited (argparseTypeErr t) fs) = _
      rw [if_neg ht]

theorem C3_empty_title_witness :
    pyStrip (pyOrStr (Args.mk (some "   ") none (some 2024) (some 3)).title "unused") = "" ∧
    ∃ msg, main (Args.mk (some "   ") none (some 2024) (some 3)) "unused" "post" now0 fs0 =
      .exited msg fs0 :=
  ⟨by decide, C3_empty_title (Args.mk (some "   ") none (some 2024) (some 3)) "unused" "post"
    now0 fs0 (by decide)⟩

/-- C4: if the supplied content type is not in {"post", "note"} (and the
title is valid), the tool terminates with a non-zero exit code, the error
message mentions both valid types, and the filesystem is left exactly as
it was. -/
theorem C4_invalid_type (args : Args) (i1 i2 : String) (now : Now) (fs : FS)
    (htitle : pyStrip (pyOrStr args.title i1) ≠ "")
    (hct : pyOrStr args.type i2 ∉ content_types) :
    ∃ msg, main args i1 i2 now fs = .exited msg fs ∧
      "post".data <:+: msg.data ∧ "note".data <:+: msg.data := by
  unfold main
  rcases h : args.type with _ | t
  · rw [h] at hct
    refine ⟨"Error: invalid content type, should be one of: ['post', 'note']",
      mainBody_invalid_type htitle ?_, by decide, by decide⟩
    rw [h]
    exact hct
  · by_cases ht : t ∈ content_types
    · exfalso
      have hne : t ≠ "" := by
        rcases (by simpa [content_types] using ht : t = "post" ∨ t = "note") with rfl | rfl <;> decide
      rw [h] at hct
      apply hct
      show (if t = "" then i2 else t) ∈ content_types
      rw [if_neg hne]
      exact ht
    · refine ⟨argparseTypeErr t, ?_, ?_, ?_⟩
      · show (if t ∈ content_types then mainBody args i1 i2 now fs
              else RunResult.exited (argparseTypeErr t) fs) = _
        rw [if_neg ht]
      · show "post".data <:+: ("argument --type: invalid choice: '" ++ t ++ "' (choose from 'post', 'note')").data
        rw [data_append]
        exact infix_append_left _ (by decide)
      · show "note".data <:+: ("argument --type: invalid choice: '" ++ t ++ "' (choose from 'post', 'note')").data
        rw [data_append]
        exact infix_append_left _ (by decide)

theorem C4_invalid_type_witness :
    pyStrip (pyOrStr (Args.mk (some "My Post") none (some 2024) (some 3)).title "") ≠ "" ∧
    pyOrStr (Args.mk (some "My Post") none (some 2024) (some 3)).type "invalid" ∉ content_types ∧
    ∃ msg, main (Args.mk (some "My Post") none (some 2024) (some 3)) "" "invalid" now0 fs0 =
      .exited msg fs0 ∧ "post".data <:+: msg.data ∧ "note".data <:+: msg.data :=
  ⟨by decide, by decide,
    C4_invalid_type (Args.mk (some "My Post") none (some 2024) (some 3)) "" "invalid"
      now0 fs0 (by decide) (by decide)⟩

/-- C5: if the base directory for the resolved content type does not exist,
the tool exits with a non-zero code, the error message names the missing
path, and the filesystem is left exactly as it was; moreover a successful
run requires the base directory to have existed beforehand — the tool never
creates base category directories. -/
theorem C5_missing_base_dir (title : String) (year month : Int) (ct sub : String)
    (now : Now) (fs : FS)
    (hsub : content_types_to_dir.lookup ct = some sub) :
    ("content/" ++ sub ∉ fs.dirs →
      init_content title year month ct content_types_to_dir now fs =
        .exited ("Error: directory '" ++ ("content/" ++ sub) ++ "' does not exist") fs) ∧
    (∀ lines fs1,
      init_content title year month ct content_types_to_dir now fs = .ok lines fs1 →
      "content/" ++ sub ∈ fs.dirs) := by
  constructor
  · exact fun hbase => init_content_exit hsub hbase
  · intro lines fs1 hok
    by_contra hbase
    rw [init_content_exit hsub hbase] at hok
    simp at hok

theorem C5_missing_base_dir_witness :
    content_types_to_dir.lookup "post" = some "posts" ∧
    ("content/" ++ "posts" ∉ fsNoBase.dirs →
      init_content "My Post" 2024 3 "post" content_types_to_dir now0 fsNoBase =
        .exited ("Error: directory '" ++ ("content/" ++ "posts") ++ "' does not exist") fsNoBase) ∧
    (∀ lines fs1,
      init_content "My Post" 2024 3 "post" content_types_to_dir now0 fsNoBase = .ok lines fs1 →
      "content/" ++ "posts" ∈ fsNoBase.dirs) :=
  ⟨by decide, C5_missing_base_dir "My Post" 2024 3 "post" "posts" now0 fsNoBase (by decide)⟩

/-- `init_content` run twice with identical inputs: both runs succeed with
the same report and the same final filesystem, and the frontmatter file
holds exactly the frontmatter (full overwrite). -/
theorem init_content_idem {title : String} {year month : Int} {ct sub : String}
    {now : Now} {fs : FS}
    (hsub : content_types_to_dir.lookup ct = some sub)
    (hbase : "content/" ++ sub ∈ fs.dirs) :
    ∃ lines fs1,
      init_content title year month ct content_types_to_dir now fs = .ok lines fs1 ∧
      init_content title year month ct content_types_to_dir now fs1 = .ok lines fs1 ∧
      fs1.files.lookup ("content/" ++ sub ++ "/" ++ dirNameOf title year month ++ "/" ++ "index.md") =
        some (frontmatter title now.dateStr ct (slugOf title)) := by
  refine ⟨_, _, init_content_ok hsub hbase, ?_, ?_⟩
  · have hbase1 : "content/" ++ sub ∈
        ((fs.makedirs ("content/" ++ sub ++ "/" ++ dirNameOf title year month)).write
          ("content/" ++ sub ++ "/" ++ dirNameOf title year month ++ "/" ++ "index.md")
          (frontmatter title now.dateStr ct (slugOf title))).dirs := by
      rw [write_dirs]
      exact mem_makedirs_of_mem _ hbase
    rw [init_content_ok hsub hbase1]
    have hmk : ((fs.makedirs ("content/" ++ sub ++ "/" ++ dirNameOf title year month)).write
          ("content/" ++ sub ++ "/" ++ dirNameOf title year month ++ "/" ++ "index.md")
          (frontmatter title now.dateStr ct (slugOf title))).makedirs
            ("content/" ++ sub ++ "/" ++ dirNameOf title year month) =
        (fs.makedirs ("content/" ++ sub ++ "/" ++ dirNameOf title year month)).write
          ("content/" ++ sub ++ "/" ++ dirNameOf title year month ++ "/" ++ "index.md")
          (frontmatter title now.dateStr ct (slugOf title)) := by
      apply makedirs_id
      intro x hx
      rw [write_dirs]
      exact prefixes_mem_makedirs fs _ x hx
    rw [hmk, write_write]
  · simp [FS.write, List.lookup]

/-- C6: re-running the tool with identical inputs succeeds both times:
directory creation is idempotent and the second run fully overwrites
`index.md`, leaving the filesystem exactly as after the first run, with
the file holding exactly the frontmatter. -/
theorem C6_idempotent (args : Args) (i1 i2 : String) (now : Now) (fs : FS) (sub : String)
    (hgate : ∀ t, args.type = some t → t ∈ content_types)
    (htitle : pyStrip (pyOrStr args.title i1) ≠ "")
    (hct : pyOrStr args.type i2 ∈ content_types)
    (hsub : content_types_to_dir.lookup (pyOrStr args.type i2) = some sub)
    (hbase : "content/" ++ sub ∈ fs.dirs) :
    ∃ lines fs1,
      main args i1 i2 now fs = .ok lines fs1 ∧
      main args i1 i2 now fs1 = .ok lines fs1 ∧
      fs1.files.lookup ("content/" ++ sub ++ "/" ++
          dirNameOf (pyStrip (pyOrStr args.title i1)) (pyOrInt args.year now.year)
            (pyOrInt args.month now.month) ++ "/" ++ "index.md") =
        some (frontmatter (pyStrip (pyOrStr args.title i1)) now.dateStr
          (pyOrStr args.type i2) (slugOf (pyStrip (pyOrStr args.title i1)))) := by
  obtain ⟨lines, fs1, h1, h2, h3⟩ :=
    @init_content_idem (pyStrip (pyOrStr args.title i1)) (pyOrInt args.year now.year)
      (pyOrInt args.month now.month) (pyOrStr args.type i2) sub now fs hsub hbase
  refine ⟨lines, fs1, ?_, ?_, h3⟩
  · rw [main_to_init hgate htitle hct]
    exact h1
  · rw [main_to_init hgate htitle hct]
    exact h2

theorem C6_idempotent_witness :
    ∃ lines fs1,
      main args0 "" "" now0 fs0 = .ok lines fs1 ∧
      main args0 "" "" now0 fs1 = .ok lines fs1 ∧
      fs1.files.lookup ("content/" ++ "posts" ++ "/" ++
          dirNameOf (pyStrip (pyOrStr args0.title "")) (pyOrInt args0.year now0.year)
            (pyOrInt args0.month now0.month) ++ "/" ++ "index.md") =
        some (frontmatter (pyStrip (pyOrStr args0.title "")) now0.dateStr
          (pyOrStr args0.type "") (slugOf (pyStrip (pyOrStr args0.title "")))) :=
  C6_idempotent args0 "" "" now0 fs0 "posts"
    (by intro t ht; injection ht with h; subst h; decide)
    (by decide) (by decide) (by decide) (by decide)

/-- C7: for every valid input, the frontmatter written to `index.md`
contains non-empty title, date, type and slug fields, and empty summary
and tags fields. -/
theorem C7_frontmatter_fields (title : String) (year month : Int) (ct sub : String)
    (now : Now) (fs : FS)
    (htitle : title ≠ "")
    (hct : ct ∈ content_types)
    (hsub : content_types_to_dir.lookup ct = some sub)
    (hbase : "content/" ++ sub ∈ fs.dirs) :
    (∃ lines fs1,
      init_content title year month ct content_types_to_dir now fs = .ok lines fs1 ∧
      fs1.files.lookup ("content/" ++ sub ++ "/" ++ dirNameOf title year month ++ "/" ++ "index.md") =
        some (frontmatter title now.dateStr ct (slugOf title))) ∧
    ("title = \"" ++ title ++ "\"") ∈ frontmatterLines title now.dateStr ct (slugOf title) ∧
    ("date = \"" ++ now.dateStr ++ "\"") ∈ frontmatterLines title now.dateStr ct (slugOf title) ∧
    ("type = \"" ++ ct ++ "\"") ∈ frontmatterLines title now.dateStr ct (slugOf title) ∧
    ("slug = \"" ++ slugOf title ++ "\"") ∈ frontmatterLines title now.dateStr ct (slugOf title) ∧
    "summary = \"\"" ∈ frontmatterLines title now.dateStr ct (slugOf title) ∧
    "tags = []" ∈ frontmatterLines title now.dateStr ct (slugOf title) ∧
    title ≠ "" ∧ now.dateStr ≠ "" ∧ ct ≠ "" ∧ slugOf title ≠ "" := by
  have hctne : ct ≠ "" := by
    rcases (by simpa [content_types] using hct : ct = "post" ∨ ct = "note") with rfl | rfl <;> decide
  refine ⟨⟨_, _, init_content_ok hsub hbase, by simp [FS.write, List.lookup]⟩,
    by simp [frontmatterLines], by simp [frontmatterLines], by simp [frontmatterLines],
    by simp [frontmatterLines], by simp [frontmatterLines], by simp [frontmatterLines],
    htitle, dateStr_ne_empty now, hctne, slugOf_ne_empty htitle⟩

theorem C7_frontmatter_fields_witness :
    (∃ lines fs1,
      init_content "My Post" 2024 3 "post" content_types_to_dir now0 fs0 = .ok lines fs1 ∧
      fs1.files.lookup ("content/" ++ "posts" ++ "/" ++ dirNameOf "My Post" 2024 3 ++ "/" ++ "index.md") =
        some (frontmatter "My Post" now0.dateStr "post" (slugOf "My Post"))) ∧
    ("title = \"" ++ "My Post" ++ "\"") ∈ frontmatterLines "My Post" now0.dateStr "post" (slugOf "My Post") ∧
    ("date = \"" ++ now0.dateStr ++ "\"") ∈ frontmatterLines "My Post" now0.dateStr "post" (slugOf "My Post") ∧
    ("type = \"" ++ "post" ++ "\"") ∈ frontmatterLines "My Post" now0.dateStr "post" (slugOf "My Post") ∧
    ("slug = \"" ++ slugOf "My Post" ++ "\"") ∈ frontmatterLines "My Post" now0.dateStr "post" (slugOf "My Post") ∧
    "summary = \"\"" ∈ frontmatterLines "My Post" now0.dateStr "post" (slugOf "My Post") ∧
    "tags = []" ∈ frontmatterLines "My Post" now0.dateStr "post" (slugOf "My Post") ∧
    ("My Post" : String) ≠ "" ∧ now0.dateStr ≠ "" ∧ ("post" : String) ≠ "" ∧ slugOf "My Post" ≠ "" :=
  C7_frontmatter_fields "My Post" 2024 3 "post" "posts" now0 fs0
    (by decide) (by decide) (by decide) (by decide)

/-- C8, counterexample: with `--month 0` — an integer outside 1–12 — the
tool accepts the value but does not embed it: truthy defaulting substitutes
the current month (3), so the directory name is `2024_03_my_post`, not the
claimed two-digit embedding `2024_00_my_post` of the supplied month. -/
theorem C8_month_zero_counterexample :
    main (Args.mk (some "My Post") (some "post") (some 2024) (some 0)) "" "" now0 fs0 =
      .ok ["New post created", "\ttitle:\tMy Post", "\tdir:\t2024_03_my_post",
           "\tslug:\tmy-post", "\tpath:\tcontent/posts/2024_03_my_post/index.md"]
        (FS.mk ["content", "content/posts", "content/notes", "content/posts/2024_03_my_post"]
          [("content/posts/2024_03_my_post/index.md",
            frontmatter "My Post" "2024-03-15" "post" "my-post")]) ∧
    "2024_03_my_post" ≠ specDirName "My Post" 2024 0 := by
  constructor
  · decide
  · decide

/-- C8, amended: for every nonzero integer month — including every value
outside 1–12, such as 13 — the tool accepts the value without validation
and produces a directory name embedding it via the two-digit format; a
supplied month of 0 is instead replaced by the current month (see C9). -/
theorem C8_month_unvalidated (args : Args) (i1 i2 : String) (now : Now) (fs : FS)
    (sub : String) (month : Int)
    (hgate : ∀ t, args.type = some t → t ∈ content_types)
    (htitle : pyStrip (pyOrStr args.title i1) ≠ "")
    (hct : pyOrStr args.type i2 ∈ content_types)
    (hsub : content_types_to_dir.lookup (pyOrStr args.type i2) = some sub)
    (hbase : "content/" ++ sub ∈ fs.dirs)
    (hmonth : args.month = some month) (hm : month ≠ 0) :
    (∃ lines fs1, main args i1 i2 now fs = .ok lines fs1 ∧
       ("\tdir:\t" ++ dirNameOf (pyStrip (pyOrStr args.title i1))
          (pyOrInt args.year now.year) month) ∈ lines) ∧
    dirNameOf "My Post" 2024 13 = "2024_13_my_post" := by
  have hpm : pyOrInt args.month now.month = month := by
    rw [hmonth]
    show (if month = 0 then now.month else month) = month
    rw [if_neg hm]
  refine ⟨⟨_, _, by rw [main_to_init hgate htitle hct]; exact init_content_ok hsub hbase, ?_⟩,
    by decide⟩
  rw [← hpm]
  simp

theorem C8_month_unvalidated_witness :
    (∃ lines fs1, main args13 "" "" now0 fs0 = .ok lines fs1 ∧
       ("\tdir:\t" ++ dirNameOf (pyStrip (pyOrStr args13.title ""))
          (pyOrInt args13.year now0.year) 13) ∈ lines) ∧
    dirNameOf "My Post" 2024 13 = "2024_13_my_post" :=
  C8_month_unvalidated args13 "" "" now0 fs0 "posts" 13
    (by intro t ht; injection ht with h; subst h; decide)
    (by decide) (by decide) (by decide) (by decide) (by decide) (by decide)

/-- C9: because year and month defaults use Python truthiness
(`args.year or now.year`, `args.month or now.month`), explicitly passing
`--year 0` or `--month 0` behaves exactly as if the flag were omitted: the
current year or month is silently substituted. -/
theorem C9_zero_flag_default (t ty : Option String) (y m : Option Int)
    (i1 i2 : String) (now : Now) (fs : FS) :
    main (Args.mk t ty (some 0) m) i1 i2 now fs = main (Args.mk t ty none m) i1 i2 now fs ∧
    main (Args.mk t ty y (some 0)) i1 i2 now fs = main (Args.mk t ty y none) i1 i2 now fs := by
  constructor <;> cases ty <;> simp [main, mainBody, pyOrInt]

/-- C10: the title written into the frontmatter is the stripped input
title verbatim, with no escaping: when the title contains a double quote,
the quoted `title` field in the written file is not a single well-formed
quoted string. -/
theorem C10_title_unescaped (args : Args) (i1 i2 : String) (now : Now) (fs : FS) (sub : String)
    (hgate : ∀ t, args.type = some t → t ∈ content_types)
    (htitle : pyStrip (pyOrStr args.title i1) ≠ "")
    (hq : '"' ∈ (pyStrip (pyOrStr args.title i1)).data)
    (hct : pyOrStr args.type i2 ∈ content_types)
    (hsub : content_types_to_dir.lookup (pyOrStr args.type i2) = some sub)
    (hbase : "content/" ++ sub ∈ fs.dirs) :
    ∃ lines fs1,
      main args i1 i2 now fs = .ok lines fs1 ∧
      fs1.files.lookup ("content/" ++ sub ++ "/" ++
          dirNameOf (pyStrip (pyOrStr args.title i1)) (pyOrInt args.year now.year)
            (pyOrInt args.month now.month) ++ "/" ++ "index.md") =
        some (frontmatter (pyStrip (pyOrStr args.title i1)) now.dateStr
          (pyOrStr args.type i2) (slugOf (pyStrip (pyOrStr args.title i1)))) ∧
      ("title = \"" ++ pyStrip (pyOrStr args.title i1) ++ "\"") ∈
        frontmatterLines (pyStrip (pyOrStr args.title i1)) now.dateStr
          (pyOrStr args.type i2) (slugOf (pyStrip (pyOrStr args.title i1))) ∧
      wellFormedQuoted ("\"" ++ pyStrip (pyOrStr args.title i1) ++ "\"") = false := by
  refine ⟨_, _, by rw [main_to_init hgate htitle hct]; exact init_content_ok hsub hbase,
    ?_, ?_, ?_⟩
  · simp [FS.write, List.lookup]
  · simp [frontmatterLines]
  · exact wellFormedQuoted_of_quote hq

theorem C10_title_unescaped_witness :
    ∃ lines fs1,
      main argsQ "" "" now0 fs0 = .ok lines fs1 ∧
      fs1.files.lookup ("content/" ++ "posts" ++ "/" ++
          dirNameOf (pyStrip (pyOrStr argsQ.title "")) (pyOrInt argsQ.year now0.year)
            (pyOrInt argsQ.month now0.month) ++ "/" ++ "index.md") =
        some (frontmatter (pyStrip (pyOrStr argsQ.title "")) now0.dateStr
          (pyOrStr argsQ.type "") (slugOf (pyStrip (pyOrStr argsQ.title "")))) ∧
      ("title = \"" ++ pyStrip (pyOrStr argsQ.title "") ++ "\"") ∈
        frontmatterLines (pyStrip (pyOrStr argsQ.title "")) now0.dateStr
          (pyOrStr argsQ.type "") (slugOf (pyStrip (pyOrStr argsQ.title ""))) ∧
      wellFormedQuoted ("\"" ++ pyStrip (pyOrStr argsQ.title "") ++ "\"") = false :=
  C10_title_unescaped argsQ "" "" now0 fs0 "posts"
    (by intro t ht; injection ht with h; subst h; decide)
    (by decide) (by decide) (by decide) (by decide) (by decide)

end NewContent
